import Mathlib

/-!
Shallow embedding of the wifebot repository (src/wifebot) in Lean 4.

The repository is a thin configuration-resolution and platform-selection
layer over an external browser-automation agent.  We embed:

  * JSON-like configuration documents (`JValue`), with Python `None`
    modelled as `JValue.null`;
  * `loader.py` (a.k.a. `config_loader`): `get_xdg_config_home`,
    `get_default_config_path`, `load_config`, `load_prompt`,
    `render_prompt_template`, `get_default_config_value`,
    `expand_path_template`, `get_profile_dir`, `get_trace_path`;
  * `platform.py`: `Platform.__init__` (config loading and setting
    resolution), `_resolve_config_value`, the `task` property, and a
    trace model of `Platform.run`;
  * `factory.py`: the platform registry, `create_platform`,
    `run_all_platforms`, `interactive_mode`, `PlatformFactory.__init__`;
  * `main.py`: `async_main`.

File I/O, the Jinja2 template engine, the browser session and the LLM
agent are external collaborators; they are modelled as components of an
explicit environment (`Env`) : the filesystem is a function from paths to
`Option (Option JValue)` (absent / present-but-malformed / parsed),
prompt files are a function from prompt names to `Option String`, and
the Jinja2 render of `base_task.tpl` is a function from the
configuration document to `Option String` (`none` = render error).
-/

/-- JSON-compatible values as produced by Python `json.load`.
Python `None` (JSON `null`) is `JValue.null`.  Numeric values are
modelled as integers; no claim depends on float arithmetic. -/
inductive JValue where
  | null
  | bool (b : Bool)
  | num (n : Int)
  | str (s : String)
  | arr (xs : List JValue)
  | obj (kvs : List (String × JValue))

/-- Lookup in a Python dict modelled as an association list
(`k in d` together with `d[k]`). -/
def dict_lookup {α : Type} : List (String × α) → String → Option α
  | [], _ => none
  | (k, v) :: rest, key => if k = key then some v else dict_lookup rest key

/-- Python truthiness (`if x:`) on JSON-compatible values:
`None`, `False`, `0`, `""`, `[]` and `{}` are falsy. -/
def py_truthy : JValue → Bool
  | .null => false
  | .bool b => b
  | .num n => n != 0
  | .str s => s != ""
  | .arr xs => !xs.isEmpty
  | .obj kvs => !kvs.isEmpty

/-- ASCII whitespace stripped by Python `str.strip()`:
space, tab, newline, carriage return, vertical tab, form feed. -/
def py_is_space (c : Char) : Bool :=
  c = ' ' || c = '\t' || c = '\n' || c = '\r' || c = Char.ofNat 11 || c = Char.ofNat 12

/-- Python `str.strip()`: remove leading and trailing whitespace. -/
def pyStrip (s : String) : String :=
  String.mk (((s.data.dropWhile py_is_space).reverse.dropWhile py_is_space).reverse)

/-- Python `str.split(sep)` for a single-character separator, on
character lists: `"a.b" -> ["a","b"]`, `"" -> [""]`. -/
def split_char (sep : Char) : List Char → List (List Char)
  | [] => [[]]
  | c :: rest =>
    match split_char sep rest with
    | [] => if c = sep then [[], []] else [[c]]
    | g :: gs => if c = sep then [] :: g :: gs else (c :: g) :: gs

/-- Python `key_path.split('.')` of `get_default_config_value`. -/
def split_dot (s : String) : List String :=
  (split_char '.' s.data).map String.mk

/-- Nested lookup of a sequence of keys in a `JValue`, following the
loop `for key in keys: value = value[key]` of `get_default_config_value`
(loader.py).  String indexing succeeds only on a mapping with the key
present; a missing key (`KeyError`) or a non-mapping intermediate value
(`TypeError`) yields `none` (the Python code catches both). -/
def lookupPath : JValue → List String → Option JValue
  | v, [] => some v
  | .obj kvs, k :: rest =>
    match dict_lookup kvs k with
    | some v => lookupPath v rest
    | none => none
  | _, _ :: _ => none

/-- loader.py `get_default_config_value(config, key_path, default=None)`:
dotted-path lookup with a default.  The Python default parameter `None`
is `JValue.null` at call sites that omit it. -/
def get_default_config_value (config : JValue) (key_path : String) (default : JValue) : JValue :=
  match lookupPath config (split_dot key_path) with
  | some v => v
  | none => default

/-- platform.py `Platform._resolve_config_value(param_name, kwargs,
config_key, default_value)`: kwargs > config file > constructor default.
The config tier calls `get_default_config_value` with its default of
`None` and then tests `config_value is not None`; the final `match` arm
on `.null` is that identity test. -/
def resolve_config_value (param_name : String) (kwargs : List (String × JValue))
    (config : JValue) (config_key : String) (default_value : JValue) : JValue :=
  match dict_lookup kwargs param_name with
  | some v => v
  | none =>
    match get_default_config_value config config_key .null with
    | .null => default_value
    | v => v

/-- External world seen by the loader: the process environment variable
`XDG_CONFIG_HOME`, the home directory, the filesystem of JSON config
files (`none` = path does not exist, `some none` = file exists but is
not valid JSON, `some (some doc)` = parses to `doc`), the prompt text
files of the `prompts` directory keyed by prompt name, and the Jinja2
render of `base_task.tpl` as a function of the configuration document
(`none` = template missing or render error). -/
structure Env where
  env_xdg : Option String
  home : String
  fs : String → Option (Option JValue)
  prompts : String → Option String
  render_base : JValue → Option String

/-- loader.py `get_xdg_config_home()`: the `XDG_CONFIG_HOME` environment
variable if set and truthy, else `~/.config`. -/
def get_xdg_config_home (E : Env) : String :=
  match E.env_xdg with
  | some p => if p = "" then E.home ++ "/.config" else p
  | none => E.home ++ "/.config"

/-- loader.py `get_default_config_path()`:
`XDG_CONFIG_HOME/wifebot/config.json`. -/
def get_default_config_path (E : Env) : String :=
  get_xdg_config_home E ++ "/wifebot/config.json"

/-- Errors of `load_config`: `FileNotFoundError` and
`json.JSONDecodeError`. -/
inductive LoadErr where
  | notFound
  | parseError
deriving DecidableEq

/-- loader.py `load_config(config_path=None)`: resolve the path (the
argument if given, else the default XDG path), fail with
`FileNotFoundError` if it does not exist, with `json.JSONDecodeError`
if it is not valid JSON, else return the parsed document. -/
def load_config (config_path : Option String) (E : Env) : Except LoadErr JValue :=
  let path := match config_path with
    | none => get_default_config_path E
    | some p => p
  match E.fs path with
  | none => .error .notFound
  | some none => .error .parseError
  | some (some doc) => .ok doc

/-- Errors arising during `Platform.__init__` and the `task` property:
a JSON parse error of the config file, a missing/failing base-task
template, a missing platform instructions file. -/
inductive PlatformErr where
  | parseError
  | templateError
  | promptNotFound
deriving DecidableEq

/-- loader.py `load_prompt(prompt_name)`: read
`prompts/<prompt_name>.txt`, `FileNotFoundError` if absent, and return
the whitespace-stripped content. -/
def load_prompt (E : Env) (prompt_name : String) : Except PlatformErr String :=
  match E.prompts prompt_name with
  | none => .error .promptNotFound
  | some content => .ok (pyStrip content)

/-- loader.py `render_prompt_template('base_task.tpl', config)`: render
the shared base-task template against the configuration document via
the external template engine, and strip the result. -/
def render_prompt_template (E : Env) (config : JValue) : Except PlatformErr String :=
  match E.render_base config with
  | none => .error .templateError
  | some rendered => .ok (pyStrip rendered)

/-- The four platform variants of the registry. -/
inductive Variant where
  | bumble
  | tinder
  | hinge
  | okcupid
deriving DecidableEq

/-- The `name` property of each variant (bumble.py, tinder.py,
hinge.py, okcupid.py). -/
def Variant.name : Variant → String
  | .bumble => "bumble"
  | .tinder => "tinder"
  | .hinge => "hinge"
  | .okcupid => "okcupid"

/-- The `url` property of each variant. -/
def Variant.url : Variant → String
  | .bumble => "https://bumble.com/app"
  | .tinder => "https://tinder.com/app/recs"
  | .hinge => "https://hinge.co/discover"
  | .okcupid => "https://www.okcupid.com/discover"

/-- The prompt name each variant's `platform_instructions` property
passes to `load_prompt`. -/
def Variant.instructions_key : Variant → String
  | .bumble => "bumble_instructions"
  | .tinder => "tinder_instructions"
  | .hinge => "hinge_instructions"
  | .okcupid => "okcupid_instructions"

/-- A constructed `Platform` instance: the variant, the loaded
configuration document, the rendered base task, the eight resolved
settings, and the raw custom path overrides
(`kwargs.get('profile_dir')`, `kwargs.get('trace_path')`). -/
structure PlatformState where
  variant : Variant
  config : JValue
  base_task : String
  headless : JValue
  viewport_width : JValue
  viewport_height : JValue
  min_wait : JValue
  max_wait : JValue
  model : JValue
  verbose : JValue
  custom_profile_dir : Option JValue
  custom_trace_path : Option JValue

/-- platform.py `Platform.__init__` lines 41-45: load the config file,
swallowing only `FileNotFoundError` (empty document), and letting a
parse error propagate. -/
def platform_init_config (config_path : Option String) (E : Env) : Except PlatformErr JValue :=
  match load_config config_path E with
  | .error .notFound => .ok (.obj [])
  | .error .parseError => .error .parseError
  | .ok c => .ok c

/-- platform.py `Platform.__init__`: load the configuration (tolerating
absence), render the base task, resolve the seven tunable settings via
`_resolve_config_value` against the constructor defaults, and store the
raw `profile_dir` / `trace_path` overrides. -/
def platform_construct (E : Env) (v : Variant) (config_path : Option String)
    (kwargs : List (String × JValue)) : Except PlatformErr PlatformState :=
  match platform_init_config config_path E with
  | .error e => .error e
  | .ok config =>
    match render_prompt_template E config with
    | .error e => .error e
    | .ok base_task =>
      .ok {
        variant := v
        config := config
        base_task := base_task
        headless := resolve_config_value "headless" kwargs config "browser.headless" (.bool false)
        viewport_width := resolve_config_value "viewport_width" kwargs config "browser.viewport.width" (.num 1280)
        viewport_height := resolve_config_value "viewport_height" kwargs config "browser.viewport.height" (.num 1100)
        min_wait := resolve_config_value "min_wait" kwargs config "browser.minimum_wait_page_load_time" (.num 1)
        max_wait := resolve_config_value "max_wait" kwargs config "browser.maximum_wait_page_load_time" (.num 10)
        model := resolve_config_value "model" kwargs config "llm.model" (.str "gpt-4o-mini")
        verbose := resolve_config_value "verbose" kwargs config "verbose" (.bool false)
        custom_profile_dir := dict_lookup kwargs "profile_dir"
        custom_trace_path := dict_lookup kwargs "trace_path" }

/-- platform.py `Platform.task`: `base_task + "\n\n" +
platform_instructions`, where `platform_instructions` loads the
variant's instructions prompt. -/
def platform_task (E : Env) (st : PlatformState) : Except PlatformErr String :=
  match load_prompt E st.variant.instructions_key with
  | .error e => .error e
  | .ok instructions => .ok (st.base_task ++ "\n\n" ++ instructions)

/-- Replace every non-overlapping occurrence of `pat` (nonempty) by
`repl`, left to right, with explicit fuel (one unit per consumed
character). -/
def replace_aux (pat repl : List Char) : Nat → List Char → List Char
  | 0, s => s
  | _ + 1, [] => []
  | fuel + 1, c :: rest =>
    if pat ≠ [] ∧ pat.isPrefixOf (c :: rest) then
      repl ++ replace_aux pat repl fuel ((c :: rest).drop pat.length)
    else
      c :: replace_aux pat repl fuel rest

/-- Python `str.format(platform=...)` on the path templates of
loader.py: substitute the platform name for every `{platform}`
placeholder (loader.py `expand_path_template`). -/
def expand_path_template (template : String) (platform : String) : String :=
  String.mk (replace_aux "{platform}".data platform.data template.data.length template.data)

/-- loader.py `get_profile_dir(config, platform, custom_dir=None)`:
`if custom_dir: return custom_dir` (Python truthiness), else expand the
configured or built-in profile-directory template.  A non-string
template value makes `str.format` fail; modelled as `none`. -/
def get_profile_dir (config : JValue) (platform : String) (custom_dir : Option JValue) :
    Option JValue :=
  let fallback : Option JValue :=
    match get_default_config_value config "paths.profile_dir_template"
        (.str "~/.config/browseruse/profiles/{platform}") with
    | .str t => some (.str (expand_path_template t platform))
    | _ => none
  match custom_dir with
  | some v => if py_truthy v then some v else fallback
  | none => fallback

/-- loader.py `get_trace_path(config, platform, custom_path=None)`:
`if custom_path: return custom_path` (Python truthiness), else expand
the configured or built-in trace-path template. -/
def get_trace_path (config : JValue) (platform : String) (custom_path : Option JValue) :
    Option JValue :=
  let fallback : Option JValue :=
    match get_default_config_value config "paths.trace_path_template"
        (.str "/tmp/wifebot/{platform}") with
    | .str t => some (.str (expand_path_template t platform))
    | _ => none
  match custom_path with
  | some v => if py_truthy v then some v else fallback
  | none => fallback

/-- factory.py `PlatformFactory.__init__`: the `self.platforms` registry
in declaration order. -/
def registry : List (String × Variant) :=
  [("bumble", .bumble), ("tinder", .tinder), ("hinge", .hinge), ("okcupid", .okcupid)]

/-- factory.py `PlatformFactory.get_available_platforms()`:
`list(self.platforms.keys())`. -/
def get_available_platforms : List String :=
  registry.map Prod.fst

/-- The ASCII apostrophe, used by Python `repr` of strings. -/
def single_quote : String :=
  String.singleton (Char.ofNat 39)

/-- Python `str(list_of_strings)` as interpolated by the f-string in
`create_platform`'s error message: single-quoted items, comma-space
separated, in square brackets. -/
def py_repr_str_list (xs : List String) : String :=
  "[" ++ String.intercalate ", " (xs.map (fun s => single_quote ++ s ++ single_quote)) ++ "]"

/-- The `ValueError` message of factory.py `create_platform` for an
unknown platform name. -/
def unknown_platform_msg (platform_name : String) : String :=
  "Unknown platform: " ++ platform_name ++ ". Available: " ++
    py_repr_str_list get_available_platforms

/-- Errors of factory.py `create_platform`: the `ValueError` for a name
outside the registry, or an error propagating from the `Platform`
constructor. -/
inductive CreateErr where
  | unknownPlatform (msg : String)
  | construct (e : PlatformErr)

/-- factory.py `create_platform(platform_name, **kwargs)`: `ValueError`
if the name is not a registry key, else construct the matching variant
(a `config_path` among the kwargs is the constructor's `config_path`
parameter, kept as a separate argument here). -/
def create_platform (E : Env) (platform_name : String) (config_path : Option String)
    (kwargs : List (String × JValue)) : Except CreateErr PlatformState :=
  match dict_lookup registry platform_name with
  | none => .error (.unknownPlatform (unknown_platform_msg platform_name))
  | some v =>
    match platform_construct E v config_path kwargs with
    | .error e => .error (.construct e)
    | .ok st => .ok st

/-- factory.py `run_single_platform`: construct and run one platform;
any exception is logged and re-raised unchanged.  The oracle `fails`
abstracts the external agent: it says whether the construction-and-run
of a given platform raises. -/
def run_single_platform (fails : String → Bool) (platform_name : String) :
    Except String Unit :=
  if fails platform_name then .error platform_name else .ok ()

/-- The `for` loop of factory.py `run_all_platforms`: attempt each
platform in order; the `try/except Exception` around each iteration
absorbs a failure (second component `false`) and continues with the
remaining platforms. -/
def run_all_attempts (fails : String → Bool) : List String → List (String × Bool)
  | [] => []
  | p :: rest =>
    (p, match run_single_platform fails p with
        | .ok _ => true
        | .error _ => false) :: run_all_attempts fails rest

/-- factory.py `run_all_platforms`: iterate `get_available_platforms()`
sequentially, catching each platform's failure. -/
def run_all_platforms (fails : String → Bool) : List (String × Bool) :=
  run_all_attempts fails get_available_platforms

/-- factory.py `PlatformFactory.__init__` line `self.config =
load_config(config_path)`: no exception is caught here. -/
def platform_factory_init (config_path : Option String) (E : Env) : Except LoadErr JValue :=
  load_config config_path E

/-- main.py `async_main`: construct `PlatformFactory()` (with no
config path) first; only if that succeeds does argument parsing and
dispatch (`run_from_args`, abstracted as `dispatch`) run. -/
def async_main (E : Env) (dispatch : JValue → List String) : Except LoadErr (List String) :=
  match platform_factory_init none E with
  | .error e => .error e
  | .ok config => .ok (dispatch config)

/-- Python `int(s)` on user input as used by `interactive_mode`:
strip whitespace, optional sign, at least one ASCII digit, else
`ValueError` (`none`). -/
def digits_to_nat (ds : List Char) : Option Nat :=
  if ds = [] then none
  else if ds.all Char.isDigit then
    some (ds.foldl (fun acc c => acc * 10 + (c.toNat - 48)) 0)
  else none

/-- Python `int(s)` for a decimal string with optional sign. -/
def py_int_of_string (s : String) : Option Int :=
  match (pyStrip s).data with
  | [] => none
  | c :: rest =>
    if c = '+' then (digits_to_nat rest).map (fun n => (n : Int))
    else if c = '-' then (digits_to_nat rest).map (fun n => -(n : Int))
    else (digits_to_nat (c :: rest)).map (fun n => (n : Int))

/-- The menu printed by factory.py `interactive_mode`: one numbered
line per platform (capitalized), then `All platforms`, then `Exit`. -/
def interactive_menu : List String :=
  (List.range get_available_platforms.length).map
    (fun i => "  " ++ toString (i + 1) ++ ". " ++
      (get_available_platforms.getD i "").capitalize)
  ++ ["  " ++ toString (get_available_platforms.length + 1) ++ ". All platforms",
      "  " ++ toString (get_available_platforms.length + 2) ++ ". Exit"]

/-- The `while True` loop of factory.py `interactive_mode`, consuming a
finite list of input lines and counting rejected (re-prompted) inputs.
`int(input(...))` raising `ValueError` or an out-of-range choice prints
a message and loops; choice `len+2` exits (`none`), `len+1` selects
`"all"`, and `1 <= choice <= len` selects `platforms[choice-1]`.  The
outer `none` means the input list was exhausted with no selection. -/
def interactive_loop (platforms : List String) :
    List String → Nat → Option (Nat × Option String)
  | [], _ => none
  | s :: rest, rejected =>
    match py_int_of_string s with
    | none => interactive_loop platforms rest (rejected + 1)
    | some choice =>
      if choice = (platforms.length : Int) + 2 then some (rejected, none)
      else if choice = (platforms.length : Int) + 1 then some (rejected, some "all")
      else if 1 ≤ choice ∧ choice ≤ (platforms.length : Int) then
        some (rejected, some (platforms.getD (choice - 1).toNat ""))
      else interactive_loop platforms rest (rejected + 1)

/-- factory.py `interactive_mode` over a finite list of input lines:
returns the number of rejected inputs and the selection (`none` =
explicit exit, `some "all"`, or `some platform_name`). -/
def interactive_mode (inputs : List String) : Option (Nat × Option String) :=
  interactive_loop get_available_platforms inputs 0

/-- Events of a `Platform.run` execution, in emission order: session
start, navigation, agent run, session stop. -/
inductive REvent where
  | start
  | navigate
  | agentRun
  | stop
deriving DecidableEq

/-- Trace model of platform.py `Platform.run`: `await
browser_session.start()`; then a `try` block that navigates, builds the
agent (loading the task prompt) and runs it; and a `finally` block that
always stops the session.  Each flag says whether the corresponding
fallible step succeeds; a step that raises produces no further events
of the `try` block, and the `finally` clause appends `stop` whenever
`start` succeeded.  Returns the outcome (`error` = an exception
propagates to the caller) and the emitted event trace. -/
def platform_run_trace (start_ok nav_ok setup_ok agent_ok : Bool) :
    Except Unit Unit × List REvent :=
  if !start_ok then (.error (), [])
  else
    let body : Except Unit Unit × List REvent :=
      if !nav_ok then (.error (), [])
      else if !setup_ok then (.error (), [.navigate])
      else if !agent_ok then (.error (), [.navigate])
      else (.ok (), [.navigate, .agentRun])
    (body.1, .start :: (body.2 ++ [.stop]))

/-- The `profile_dir` property of platform.py: delegate to
`get_profile_dir` with the loaded config, the platform name and the
stored custom override. -/
def platform_profile_dir (st : PlatformState) : Option JValue :=
  get_profile_dir st.config st.variant.name st.custom_profile_dir

/-- The `trace_path` property of platform.py: delegate to
`get_trace_path`. -/
def platform_trace_path (st : PlatformState) : Option JValue :=
  get_trace_path st.config st.variant.name st.custom_trace_path

/-- A world with no config file anywhere, no prompts and no template:
used to exercise the missing-config-file paths. -/
def Env0 : Env :=
  { env_xdg := none
    home := "/home/user"
    fs := fun _ => none
    prompts := fun _ => none
    render_base := fun _ => none }

/-- A world with no config file, a bumble instructions prompt and a
base-task template that renders to a constant. -/
def Env1 : Env :=
  { env_xdg := none
    home := "/home/user"
    fs := fun _ => none
    prompts := fun n => if n = "bumble_instructions" then some " swipe right " else none
    render_base := fun _ => some " base task " }

/-- A world whose every config path holds a malformed JSON file. -/
def Env2 : Env :=
  { env_xdg := none
    home := "/home/user"
    fs := fun _ => some none
    prompts := fun _ => none
    render_base := fun _ => some "" }

/-- The platform state `Platform.__init__` builds in `Env1` for bumble
with no overrides: empty config document, stripped base task, all
settings at their constructor defaults. -/
def PS1 : PlatformState :=
  { variant := .bumble
    config := .obj []
    base_task := "base task"
    headless := .bool false
    viewport_width := .num 1280
    viewport_height := .num 1100
    min_wait := .num 1
    max_wait := .num 10
    model := .str "gpt-4o-mini"
    verbose := .bool false
    custom_profile_dir := none
    custom_trace_path := none }

/-- The platform state built in `Env1` for bumble when the caller
passes the explicit override `profile_dir=""`. -/
def PS2 : PlatformState :=
  { PS1 with custom_profile_dir := some (.str "") }

theorem split_char_ne_nil (sep : Char) (l : List Char) : split_char sep l ≠ [] := by
  cases l with
  | nil => simp [split_char]
  | cons c rest =>
    cases h : split_char sep rest with
    | nil => simp [split_char, h]; split <;> simp
    | cons g gs => simp [split_char, h]; split <;> simp

theorem split_dot_ne_nil (s : String) : split_dot s ≠ [] := by
  unfold split_dot
  intro h
  exact split_char_ne_nil '.' s.data (List.map_eq_nil_iff.mp h)

/-- Over the empty configuration document, `_resolve_config_value`
degenerates to: the override if present, else the constructor
default. -/
theorem resolve_empty_config (s : String) (kwargs : List (String × JValue))
    (key : String) (d : JValue) :
    resolve_config_value s kwargs (.obj []) key d = (dict_lookup kwargs s).getD d := by
  obtain ⟨hd, tl, hsplit⟩ : ∃ hd tl, split_dot key = hd :: tl := by
    cases h : split_dot key with
    | nil => exact absurd h (split_dot_ne_nil key)
    | cons hd tl => exact ⟨hd, tl, rfl⟩
  unfold resolve_config_value get_default_config_value
  rw [hsplit]
  cases hx : dict_lookup kwargs s <;> simp [hx, lookupPath, dict_lookup]

/-- A successful `Platform.__init__` stores the requested variant and a
stripped render of the base-task template over the loaded document. -/
theorem platform_construct_ok (E : Env) (v : Variant) (cp : Option String)
    (kwargs : List (String × JValue)) (st : PlatformState)
    (h : platform_construct E v cp kwargs = .ok st) :
    st.variant = v ∧
    ∃ rendered, E.render_base st.config = some rendered ∧ st.base_task = pyStrip rendered := by
  cases h1 : platform_init_config cp E with
  | error e => simp [platform_construct, h1] at h
  | ok config =>
    cases h2 : E.render_base config with
    | none => simp [platform_construct, render_prompt_template, h1, h2] at h
    | some rendered =>
      simp [platform_construct, render_prompt_template, h1, h2] at h
      subst h
      exact ⟨rfl, rendered, h2, rfl⟩

/-- Looking a name up in the registry succeeds exactly on the four
registered names, and yields the variant carrying that name. -/
theorem registry_lookup_spec (n : String) :
    (dict_lookup registry n = none ↔ n ∉ get_available_platforms) ∧
    (∀ v, dict_lookup registry n = some v → v.name = n ∧ n ∈ get_available_platforms) := by
  by_cases h1 : "bumble" = n
  · subst h1; refine ⟨by simp [registry, dict_lookup, get_available_platforms], ?_⟩
    intro v hv
    simp [registry, dict_lookup] at hv
    simp [← hv, Variant.name, get_available_platforms, registry]
  · by_cases h2 : "tinder" = n
    · subst h2; refine ⟨by simp [registry, dict_lookup, get_available_platforms], ?_⟩
      intro v hv
      simp [registry, dict_lookup, h1] at hv
      simp [← hv, Variant.name, get_available_platforms, registry]
    · by_cases h3 : "hinge" = n
      · subst h3; refine ⟨by simp [registry, dict_lookup, get_available_platforms], ?_⟩
        intro v hv
        simp [registry, dict_lookup, h1, h2] at hv
        simp [← hv, Variant.name, get_available_platforms, registry]
      · by_cases h4 : "okcupid" = n
        · subst h4; refine ⟨by simp [registry, dict_lookup, get_available_platforms], ?_⟩
          intro v hv
          simp [registry, dict_lookup, h1, h2, h3] at hv
          simp [← hv, Variant.name, get_available_platforms, registry]
        · refine ⟨?_, ?_⟩
          · simp [registry, dict_lookup, h1, h2, h3, h4, get_available_platforms]
            exact ⟨fun h => h1 h.symm, fun h => h2 h.symm, fun h => h3 h.symm,
              fun h => h4 h.symm⟩
          · intro v hv
            simp [registry, dict_lookup, h1, h2, h3, h4] at hv

/-- C1: if the setting name is a key present in the override set,
`_resolve_config_value` returns the override value — even a falsy one —
and the configuration document, the dotted key and the default are not
consulted (the result is invariant under changing them). -/
theorem C1_override_always_wins (s : String) (kwargs : List (String × JValue))
    (config config2 : JValue) (key key2 : String) (default default2 : JValue)
    (v : JValue) (h : dict_lookup kwargs s = some v) :
    resolve_config_value s kwargs config key default = v ∧
    resolve_config_value s kwargs config key default =
      resolve_config_value s kwargs config2 key2 default2 := by
  constructor
  · simp [resolve_config_value, h]
  · simp [resolve_config_value, h]

/-- Witness for C1: the falsy override `headless=False` is returned
even though the config document says `browser.headless: true`. -/
theorem C1_witness :
    resolve_config_value "headless" [("headless", JValue.bool false)]
      (.obj [("browser", .obj [("headless", .bool true)])]) "browser.headless" (.bool true)
      = JValue.bool false :=
  (C1_override_always_wins "headless" [("headless", JValue.bool false)]
    (.obj [("browser", .obj [("headless", .bool true)])]) (.obj []) "browser.headless" ""
    (.bool true) .null (JValue.bool false) rfl).1

/-- C2 counterexample: the claim says a JSON `null` stored at the
dotted path is returned verbatim; on the code, the `is not None` test
makes it fall through to the built-in default.  Here the document
contains `{"verbose": null}` — the path resolves to `null` — yet the
default `true` is returned instead of `null`. -/
theorem C2_counterexample :
    dict_lookup ([] : List (String × JValue)) "verbose" = none ∧
    lookupPath (.obj [("verbose", .null)]) (split_dot "verbose") = some .null ∧
    resolve_config_value "verbose" [] (.obj [("verbose", .null)]) "verbose" (.bool true)
      = .bool true ∧
    JValue.bool true ≠ JValue.null :=
  ⟨rfl, rfl, rfl, fun h => JValue.noConfusion h⟩

/-- C2 (amended): for a setting absent from the override set, a
non-null value found at the dotted path is returned verbatim
(type-preserving, including falsy values); a missing path or a JSON
`null` at the path yields the built-in default. -/
theorem C2_config_tier (s : String) (kwargs : List (String × JValue))
    (config : JValue) (key : String) (d : JValue)
    (habs : dict_lookup kwargs s = none) :
    (∀ v, lookupPath config (split_dot key) = some v → v ≠ .null →
      resolve_config_value s kwargs config key d = v) ∧
    (lookupPath config (split_dot key) = none →
      resolve_config_value s kwargs config key d = d) ∧
    (lookupPath config (split_dot key) = some .null →
      resolve_config_value s kwargs config key d = d) := by
  refine ⟨?_, ?_, ?_⟩
  · intro v hv hnull
    cases v <;> simp [resolve_config_value, get_default_config_value, habs, hv]
    exact absurd rfl hnull
  · intro h
    simp [resolve_config_value, get_default_config_value, habs, h]
  · intro h
    simp [resolve_config_value, get_default_config_value, habs, h]

/-- Witness for C2 (amended): with no override, `llm.model` is read
from the document; with the path absent, the default is returned. -/
theorem C2_witness :
    resolve_config_value "model" [] (.obj [("llm", .obj [("model", .str "gpt-4")])])
      "llm.model" (.str "gpt-4o-mini") = .str "gpt-4" :=
  (C2_config_tier "model" [] (.obj [("llm", .obj [("model", .str "gpt-4")])])
    "llm.model" (.str "gpt-4o-mini") rfl).1 (.str "gpt-4") rfl
    (fun h => JValue.noConfusion h)

/-- C3: `Platform.__init__` swallows only the file-not-found error of
`load_config`, proceeding with the empty document — over which every
setting resolves to its override or its constructor default — while a
JSON parse error propagates out of the constructor. -/
theorem C3_constructor_error_policy (E : Env) (cp : Option String) :
    (load_config cp E = .error .notFound →
      platform_init_config cp E = .ok (.obj []) ∧
      ∀ s kwargs key d, resolve_config_value s kwargs (.obj []) key d
        = (dict_lookup kwargs s).getD d) ∧
    (load_config cp E = .error .parseError →
      platform_init_config cp E = .error .parseError ∧
      ∀ v kwargs, platform_construct E v cp kwargs = .error .parseError) := by
  constructor
  · intro h
    exact ⟨by simp [platform_init_config, h],
      fun s kwargs key d => resolve_empty_config s kwargs key d⟩
  · intro h
    refine ⟨by simp [platform_init_config, h], ?_⟩
    intro v kwargs
    simp [platform_construct, platform_init_config, h]

/-- Witness for C3: in a world with no config file anywhere,
constructing a platform yields the empty document, and over it the
`headless` setting falls back to its constructor default. -/
theorem C3_witness :
    platform_init_config none Env0 = .ok (.obj []) ∧
    resolve_config_value "headless" [] (.obj []) "browser.headless" (.bool false)
      = (dict_lookup ([] : List (String × JValue)) "headless").getD (.bool false) :=
  ⟨((C3_constructor_error_policy Env0 none).1 rfl).1,
   ((C3_constructor_error_policy Env0 none).1 rfl).2 "headless" [] "browser.headless"
     (.bool false)⟩

/-- C4: `PlatformFactory.__init__` calls `load_config` with no
try/except; whenever the resolved config path (the constructor-supplied
one if given, the default XDG path otherwise) names no existing file,
construction fails with the file-not-found error — and since `main.py`
constructs the factory before parsing arguments, `async_main` then
fails the same way no matter what the dispatch stage would have done,
so no platform selection or profile construction ever runs. -/
theorem C4_factory_init_fatal (E : Env) (cp : Option String)
    (dispatch : JValue → List String) :
    ((∀ p, cp = some p → E.fs p = none) → E.fs (get_default_config_path E) = none →
      platform_factory_init cp E = .error .notFound) ∧
    (E.fs (get_default_config_path E) = none →
      async_main E dispatch = .error .notFound) := by
  constructor
  · intro h1 h2
    cases cp with
    | none => simp [platform_factory_init, load_config, h2]
    | some p => simp [platform_factory_init, load_config, h1 p rfl]
  · intro h2
    simp [async_main, platform_factory_init, load_config, h2]

/-- Witness for C4: in a world with no files at all, factory
construction and the whole entry point fail with the not-found error,
for an arbitrary would-be dispatch stage. -/
theorem C4_witness :
    platform_factory_init none Env0 = .error .notFound ∧
    async_main Env0 (fun _ => ["bumble"]) = .error .notFound :=
  ⟨(C4_factory_init_fatal Env0 none (fun _ => ["bumble"])).1 (fun _ h => Option.noConfusion h)
      rfl,
   (C4_factory_init_fatal Env0 none (fun _ => ["bumble"])).2 rfl⟩

/-- C5: `run_all_platforms` attempts every registered platform exactly
once, in declaration order (bumble, tinder, hinge, okcupid), for every
failure pattern: each per-platform failure is caught (recorded `false`)
and the remaining platforms still run. -/
theorem C5_run_all_partial_failure (fails : String → Bool) :
    (run_all_platforms fails).map Prod.fst = ["bumble", "tinder", "hinge", "okcupid"] ∧
    (run_all_platforms fails).map Prod.fst = get_available_platforms ∧
    run_all_platforms fails = get_available_platforms.map (fun p => (p, !fails p)) ∧
    (∀ p, p ∈ get_available_platforms →
      ((run_all_platforms fails).map Prod.fst).count p = 1) := by
  have hattempts : ∀ l, run_all_attempts fails l = l.map (fun p => (p, !fails p)) := by
    intro l
    induction l with
    | nil => rfl
    | cons p rest ih =>
      cases h : fails p <;>
        simp [run_all_attempts, run_single_platform, h, ih]
  refine ⟨rfl, rfl, hattempts get_available_platforms, ?_⟩
  intro p hp
  have : (run_all_platforms fails).map Prod.fst = ["bumble", "tinder", "hinge", "okcupid"] :=
    rfl
  rw [this]
  simp [get_available_platforms, registry] at hp
  rcases hp with rfl | rfl | rfl | rfl <;> decide

/-- Witness for C5: even when tinder's run raises, all four platforms
are attempted in order, tinder's failure is absorbed, and hinge is
still attempted exactly once. -/
theorem C5_witness :
    run_all_platforms (fun p => p = "tinder") =
      [("bumble", true), ("tinder", false), ("hinge", true), ("okcupid", true)] ∧
    ((run_all_platforms (fun p => p = "tinder")).map Prod.fst).count "hinge" = 1 :=
  ⟨rfl, (C5_run_all_partial_failure (fun p => p = "tinder")).2.2.2 "hinge" (by decide)⟩

/-- C6: `create_platform` fails with the unknown-platform `ValueError`
exactly when the name is not one of the registry keys bumble, tinder,
hinge, okcupid; the message names the offending platform and enumerates
the four valid names; and on success the constructed profile is of the
variant registered under that name. -/
theorem C6_create_platform (E : Env) (name : String) (cp : Option String)
    (kwargs : List (String × JValue)) :
    get_available_platforms = ["bumble", "tinder", "hinge", "okcupid"] ∧
    ((∃ msg, create_platform E name cp kwargs = .error (.unknownPlatform msg)) ↔
      name ∉ get_available_platforms) ∧
    (name ∉ get_available_platforms →
      create_platform E name cp kwargs
        = .error (.unknownPlatform (unknown_platform_msg name))) ∧
    unknown_platform_msg name
      = "Unknown platform: " ++ name ++ ". Available: " ++ py_repr_str_list
          ["bumble", "tinder", "hinge", "okcupid"] ∧
    (∀ st, create_platform E name cp kwargs = .ok st → st.variant.name = name) := by
  refine ⟨rfl, ?_, ?_, rfl, ?_⟩
  · cases hl : dict_lookup registry name with
    | none =>
      refine ⟨fun _ => (registry_lookup_spec name).1.mp hl, fun _ => ?_⟩
      exact ⟨unknown_platform_msg name, by simp [create_platform, hl]⟩
    | some v =>
      have hmem := ((registry_lookup_spec name).2 v hl).2
      refine ⟨?_, fun hn => absurd hmem hn⟩
      rintro ⟨msg, hmsg⟩
      cases hc : platform_construct E v cp kwargs <;>
        simp [create_platform, hl, hc] at hmsg
  · intro hn
    cases hl : dict_lookup registry name with
    | none => simp [create_platform, hl]
    | some v => exact absurd ((registry_lookup_spec name).2 v hl).2 hn
  · intro st hst
    cases hl : dict_lookup registry name with
    | none => simp [create_platform, hl] at hst
    | some v =>
      cases hc : platform_construct E v cp kwargs with
      | error e => simp [create_platform, hl, hc] at hst
      | ok st2 =>
        simp [create_platform, hl, hc] at hst
        subst hst
        rw [(platform_construct_ok E v cp kwargs st2 hc).1]
        exact ((registry_lookup_spec name).2 v hl).1

/-- Witness for C6: an unregistered name yields the enumerating
`ValueError`; the registered name bumble constructs a bumble profile. -/
theorem C6_witness :
    create_platform Env1 "zoosk" none [] =
      .error (.unknownPlatform (unknown_platform_msg "zoosk")) ∧
    PS1.variant.name = "bumble" :=
  ⟨(C6_create_platform Env1 "zoosk" none []).2.2.1 (by decide),
   (C6_create_platform Env1 "bumble" none []).2.2.2.2 PS1 rfl⟩

/-- C7: for every platform variant, whenever construction and the
`task` property both succeed, the task text is the whitespace-trimmed
render of the base-task template, then exactly the two-character
separator of two newlines, then the whitespace-trimmed platform
instruction text. -/
theorem C7_task_concatenation (E : Env) (v : Variant) (cp : Option String)
    (kwargs : List (String × JValue)) (st : PlatformState) (t : String)
    (hc : platform_construct E v cp kwargs = .ok st)
    (ht : platform_task E st = .ok t) :
    ∃ rendered instructions,
      E.render_base st.config = some rendered ∧
      E.prompts v.instructions_key = some instructions ∧
      t = pyStrip rendered ++ "\n\n" ++ pyStrip instructions := by
  obtain ⟨hvar, rendered, hr, hbase⟩ := platform_construct_ok E v cp kwargs st hc
  cases h3 : E.prompts v.instructions_key with
  | none => simp [platform_task, load_prompt, hvar, h3] at ht
  | some instructions =>
    simp [platform_task, load_prompt, hvar, h3] at ht
    exact ⟨rendered, instructions, hr, rfl, by rw [← ht, hbase]⟩

/-- Witness for C7: in `Env1`, the bumble profile's task is the
stripped base-task render, two newlines, and the stripped bumble
instructions. -/
theorem C7_witness :
    ∃ rendered instructions,
      Env1.render_base PS1.config = some rendered ∧
      Env1.prompts Variant.bumble.instructions_key = some instructions ∧
      "base task\n\nswipe right" = pyStrip rendered ++ "\n\n" ++ pyStrip instructions :=
  C7_task_concatenation Env1 .bumble none [] PS1 "base task\n\nswipe right" rfl rfl

/-- C8 counterexample: the claim says a present-but-falsy custom
override (such as the empty string) is returned as-is; on the code,
`get_profile_dir`/`get_trace_path` test Python truthiness, so a
constructed bumble profile with the explicit override `profile_dir=""`
(stored in its override set) still gets the templated default, not the
empty string — and likewise for the trace path. -/
theorem C8_counterexample :
    platform_construct Env1 .bumble none [("profile_dir", JValue.str "")] = .ok PS2 ∧
    PS2.custom_profile_dir = some (.str "") ∧
    platform_profile_dir PS2 = some (.str "~/.config/browseruse/profiles/bumble") ∧
    platform_profile_dir PS2 ≠ some (.str "") ∧
    get_trace_path (.obj []) "bumble" (some (.str "")) = some (.str "/tmp/wifebot/bumble") :=
  ⟨rfl, rfl, rfl,
   fun h => absurd (by injection (Option.some.inj h)) (by decide : ¬ ("~/.config/browseruse/profiles/bumble" = "")),
   rfl⟩

/-- C8 (amended): for the profile-directory and trace-path settings, a
custom override counts as provided only when truthy: a truthy override
is returned as-is, a falsy one (such as the empty string) behaves
exactly like an absent one, and absence yields the templated default
formed by substituting the platform name into the configured or
built-in path template. -/
theorem C8_custom_path_truthiness (config : JValue) (name : String)
    (custom : Option JValue) :
    (∀ v, custom = some v → py_truthy v = true →
      get_profile_dir config name custom = some v ∧
      get_trace_path config name custom = some v) ∧
    (∀ v, custom = some v → py_truthy v = false →
      get_profile_dir config name custom = get_profile_dir config name none ∧
      get_trace_path config name custom = get_trace_path config name none) ∧
    (∀ t, get_default_config_value config "paths.profile_dir_template"
        (.str "~/.config/browseruse/profiles/{platform}") = .str t →
      get_profile_dir config name none = some (.str (expand_path_template t name))) ∧
    (∀ t, get_default_config_value config "paths.trace_path_template"
        (.str "/tmp/wifebot/{platform}") = .str t →
      get_trace_path config name none = some (.str (expand_path_template t name))) := by
  refine ⟨?_, ?_, ?_, ?_⟩
  · intro v hv htr
    subst hv
    exact ⟨by simp [get_profile_dir, htr], by simp [get_trace_path, htr]⟩
  · intro v hv htr
    subst hv
    exact ⟨by simp [get_profile_dir, htr], by simp [get_trace_path, htr]⟩
  · intro t ht
    simp [get_profile_dir, ht]
  · intro t ht
    simp [get_trace_path, ht]

/-- Witness for C8 (amended): a truthy custom profile directory is
returned as-is; with no override, the built-in template is expanded
with the platform name. -/
theorem C8_witness :
    get_profile_dir (.obj []) "tinder" (some (.str "/data/p")) = some (.str "/data/p") ∧
    get_trace_path (.obj []) "tinder" none = some (.str "/tmp/wifebot/tinder") :=
  ⟨((C8_custom_path_truthiness (.obj []) "tinder" (some (.str "/data/p"))).1
      (.str "/data/p") rfl rfl).1,
   (C8_custom_path_truthiness (.obj []) "tinder" none).2.2.2 "/tmp/wifebot/{platform}" rfl⟩

/-- C9: `interactive_mode` presents a numbered menu of the four
platforms, then `All platforms` as entry 5 and `Exit` as entry 6;
non-numeric and out-of-range inputs are rejected and the prompt
repeats; `6` returns the exit value, `5` returns `"all"`, and a choice
`k` with `1 <= k <= 4` returns the k-th registered platform; in
particular the input sequence `["abc", "99", "2"]` is re-prompted twice
and then returns the second registered platform, tinder. -/
theorem C9_interactive_mode :
    interactive_menu = ["  1. Bumble", "  2. Tinder", "  3. Hinge", "  4. Okcupid",
      "  5. All platforms", "  6. Exit"] ∧
    (∀ rest, interactive_mode ("6" :: rest) = some (0, none)) ∧
    (∀ rest, interactive_mode ("5" :: rest) = some (0, some "all")) ∧
    (∀ s rest c, py_int_of_string s = some c → 1 ≤ c → c ≤ 4 →
      interactive_mode (s :: rest)
        = some (0, some (get_available_platforms.getD (c - 1).toNat ""))) ∧
    (∀ s rest rejected,
      (py_int_of_string s = none ∨
        (∃ c, py_int_of_string s = some c ∧ ¬(1 ≤ c ∧ c ≤ 6))) →
      interactive_loop get_available_platforms (s :: rest) rejected
        = interactive_loop get_available_platforms rest (rejected + 1)) ∧
    interactive_mode ["abc", "99", "2"] = some (2, some "tinder") := by
  refine ⟨rfl, fun rest => rfl, fun rest => rfl, ?_, ?_, rfl⟩
  · intro s rest c h h1 h4
    simp only [interactive_mode, interactive_loop, h]
    norm_num [get_available_platforms, registry]
    rw [if_neg (by omega), if_neg (by omega), if_pos (by exact ⟨h1, h4⟩)]
  · intro s rest rejected h
    rcases h with h | ⟨c, hc, hrange⟩
    · simp only [interactive_loop, h]
    · simp only [interactive_loop, hc]
      norm_num [get_available_platforms, registry]
      rw [if_neg (by omega), if_neg (by omega), if_neg (by omega)]

/-- Witness for C9: the input `3` selects the third registered
platform, hinge. -/
theorem C9_witness : interactive_mode ["3"] = some (0, some "hinge") :=
  C9_interactive_mode.2.2.2.1 "3" [] 3 rfl (by decide) (by decide)

/-- C10: in every execution of `Platform.run` in which the browser
session was started, the emitted trace balances starts with stops and
ends with the session stop — on the normal path and on every failing
path (navigation, agent setup, agent run) — so control never returns,
normally or exceptionally, with the started session still open. -/
theorem C10_session_always_stopped (start_ok nav_ok setup_ok agent_ok : Bool)
    (h : REvent.start ∈ (platform_run_trace start_ok nav_ok setup_ok agent_ok).2) :
    ((platform_run_trace start_ok nav_ok setup_ok agent_ok).2).count REvent.stop
      = ((platform_run_trace start_ok nav_ok setup_ok agent_ok).2).count REvent.start ∧
    ((platform_run_trace start_ok nav_ok setup_ok agent_ok).2).getLast?
      = some REvent.stop := by
  cases start_ok <;> cases nav_ok <;> cases setup_ok <;> cases agent_ok <;>
    revert h <;> decide

/-- Witness for C10: a run whose agent step raises still emits the
start event and closes with the stop event. -/
theorem C10_witness :
    ((platform_run_trace true true true false).2).count REvent.stop
      = ((platform_run_trace true true true false).2).count REvent.start ∧
    ((platform_run_trace true true true false).2).getLast? = some REvent.stop :=
  C10_session_always_stopped true true true false (by decide)
